import Mathlib

/-!
# wifiStation: a shallow embedding of `src/src/wifiStation.cpp`

The class `wifiStation` talks to four collaborators (radio driver, network
interface service, event loop, logger).  Every collaborator call the source
makes is recorded, in program order, in a trace of `Call`s; what a call
returns is read from a `Driver` record, so that theorems can quantify over
every possible answer.  `abort()` (reached through `assert` and
`ESP_ERROR_CHECK`) ends the run: the trace is kept and no value is returned.
Buffers are lists of bytes of their exact size; `memcpy` checks every index it
reads or writes and gives `none` on an access outside a buffer.
-/

set_option linter.dupNamespace false

namespace WifiStation

/-! ## Values of the ESP-IDF interface

The headers of ESP-IDF and libc are not part of the repository.  The constants,
records and library functions the source takes from them are written out here
with the values and meaning those headers give them.
-/

/-- The type `esp_err_t`: a signed 32-bit status code. -/
abbrev EspErr := Int

/-- The code `ESP_OK` of ESP-IDF. -/
def ESP_OK : EspErr := 0

/-- Pointers to collaborator objects (`esp_netif_t *`,
`esp_event_handler_instance_t`), as addresses. -/
abbrev Ptr := Nat

/-- The null pointer. -/
def NULL : Ptr := 0

/-- The type `esp_event_base_t`: event classes are compared by identity.
`WIFI_EVENT` and `IP_EVENT` are the two classes the source names; `other`
stands for any further class of the event loop. -/
inductive EventBase where
  | WIFI_EVENT
  | IP_EVENT
  | other (tag : Nat)
  deriving DecidableEq, Repr

/-- The wildcard `ESP_EVENT_ANY_ID` of ESP-IDF. -/
def ESP_EVENT_ANY_ID : Int := -1

/-- Enumerators of `wifi_event_t` (ESP-IDF `esp_wifi_types.h`), in declaration order. -/
def WIFI_EVENT_WIFI_READY : Int := 0
/-- Enumerator of `wifi_event_t`. -/
def WIFI_EVENT_SCAN_DONE : Int := 1
/-- Enumerator of `wifi_event_t`. -/
def WIFI_EVENT_STA_START : Int := 2
/-- Enumerator of `wifi_event_t`. -/
def WIFI_EVENT_STA_STOP : Int := 3
/-- Enumerator of `wifi_event_t`. -/
def WIFI_EVENT_STA_CONNECTED : Int := 4
/-- Enumerator of `wifi_event_t`. -/
def WIFI_EVENT_STA_DISCONNECTED : Int := 5
/-- Enumerator of `wifi_event_t`. -/
def WIFI_EVENT_STA_AUTHMODE_CHANGE : Int := 6

/-- Enumerators of `ip_event_t` (ESP-IDF `esp_netif_types.h`), in declaration order. -/
def IP_EVENT_STA_GOT_IP : Int := 0
/-- Enumerator of `ip_event_t`. -/
def IP_EVENT_STA_LOST_IP : Int := 1
/-- Enumerator of `ip_event_t`. -/
def IP_EVENT_GOT_IP6 : Int := 3

/-- The enumerator `WIFI_MODE_STA` of `wifi_mode_t`. -/
def WIFI_MODE_STA : Nat := 1

/-- The enumerator `WIFI_IF_STA` of `wifi_interface_t`. -/
def WIFI_IF_STA : Nat := 0

/-- The enumerator `ESP_MAC_WIFI_STA` of `esp_mac_type_t`. -/
def ESP_MAC_WIFI_STA : Nat := 0

/-- Size of the array `wifi_sta_config_t::ssid` (`uint8_t ssid[32]` in
ESP-IDF), that is `sizeof(wifiConfig.sta.ssid)`. -/
def SSID_SIZE : Nat := 32

/-- Size of the array `wifi_sta_config_t::password` (`uint8_t password[64]` in
ESP-IDF), that is `sizeof(wifiConfig.sta.password)`. -/
def PASSWORD_SIZE : Nat := 64

/-- The struct `wifi_pmf_config_t`. -/
structure PmfConfig where
  capable : Bool
  required : Bool
  deriving DecidableEq, Repr

/-- The struct `wifi_sta_config_t`, with the fields the source touches by name
(`ssid`, `password`, `pmf_cfg`) and the station fields next to them; byte
arrays are lists of byte values. -/
structure WifiStaConfig where
  ssid : List Nat
  password : List Nat
  bssid_set : Bool
  bssid : List Nat
  channel : Nat
  pmf_cfg : PmfConfig
  deriving DecidableEq, Repr

/-- The union `wifi_config_t`, of which the source only uses the member `sta`. -/
structure WifiConfig where
  sta : WifiStaConfig
  deriving DecidableEq, Repr

/-- The struct `wifi_ap_record_t`, reduced to identity and signal fields. -/
structure ApRecord where
  bssid : List Nat
  ssid : List Nat
  primary : Nat
  rssi : Int
  authmode : Nat
  deriving DecidableEq, Repr

/-- The six bytes `uint8_t mac[6]`. -/
structure Mac where
  m0 : Fin 256
  m1 : Fin 256
  m2 : Fin 256
  m3 : Fin 256
  m4 : Fin 256
  m5 : Fin 256
  deriving DecidableEq, Repr

/-! ## Traces and abort -/

/-- One collaborator call, with the arguments the source passes.  The
callback and context arguments of the register call are always
`this->eventHandler` and `this` and are left out. -/
inductive Call where
  | esp_read_mac (kind : Nat)
  | esp_netif_create_default_wifi_sta
  | esp_wifi_init
  | esp_event_handler_instance_register (base : EventBase) (id : Int)
  | esp_wifi_set_mode (mode : Nat)
  | esp_wifi_set_config (ifx : Nat) (cfg : WifiConfig)
  | esp_wifi_start
  | esp_netif_set_hostname (netif : Ptr) (name : Option String)
  | esp_wifi_connect
  | esp_wifi_sta_get_ap_info
  | esp_event_handler_instance_unregister (base : EventBase) (id : Int) (inst : Ptr)
  | free (p : Option String)
  | ESP_LOGI (tag : String) (msg : String)
  | ESP_LOGE (code : EspErr)
  deriving DecidableEq, Repr

/-- Outcome of running a piece of the source: the calls made so far, and the
value it returned, or `none` when `abort()` was reached. -/
structure Run (α : Type) where
  calls : List Call
  value : Option α

namespace Run

/-- Return without calling anything. -/
def ret {α : Type} (a : α) : Run α := ⟨[], some a⟩

/-- Sequencing: after an abort nothing more runs. -/
def andThen {α β : Type} (m : Run α) (f : α → Run β) : Run β :=
  match m.value with
  | none => ⟨m.calls, none⟩
  | some a => ⟨m.calls ++ (f a).calls, (f a).value⟩

/-- A run that returned to its caller. -/
def returned {α : Type} (m : Run α) : Bool := m.value.isSome

/-- A run that ended in `abort()`. -/
def aborted {α : Type} (m : Run α) : Bool := m.value.isNone

end Run

instance : Monad Run where
  pure := Run.ret
  bind := Run.andThen

/-- Record one collaborator call. -/
def call (c : Call) : Run Unit := ⟨[c], some ()⟩

/-- The libc function `abort()`. -/
def abort {α : Type} : Run α := ⟨[], none⟩

/-- The macro `ESP_ERROR_CHECK(x)` of ESP-IDF, in a build with assertions on:
abort unless `x` is `ESP_OK`. -/
def ESP_ERROR_CHECK (e : EspErr) : Run Unit :=
  if e = ESP_OK then pure () else abort

/-- The macro `ESP_ERROR_CHECK_WITHOUT_ABORT(x)` of ESP-IDF: report a code
other than `ESP_OK` and go on. -/
def ESP_ERROR_CHECK_WITHOUT_ABORT (e : EspErr) : Run Unit :=
  if e = ESP_OK then pure () else call (Call.ESP_LOGE e)

/-- The macro `assert(p)` for a pointer, in a build with assertions on: abort
on the null pointer. -/
def assert (p : Ptr) : Run Unit :=
  if p = NULL then abort else pure ()

/-- The macro `LOGI(v, t, f)` of the source: `if (v) { ESP_LOGI(t, f); }`. -/
def LOGI (v : Bool) (t : String) (f : String) : Run Unit :=
  if v then call (Call.ESP_LOGI t f) else pure ()

/-! ## Strings and formatting -/

/-- The conversion `%02x` of `printf`: lowercase hexadecimal, at least two
digits, padded on the left with zeros. -/
def fmt02x (n : Nat) : List Char :=
  let ds := Nat.toDigits 16 n
  List.replicate (2 - ds.length) '0' ++ ds

/-- The string built by
`asprintf(&hostName, "esp32-%02x%02x.%02x%02x.%02x%02x", mac[0], ..., mac[5])`;
each argument is a `uint8_t`. -/
def asprintfHostName (mac : Mac) : String :=
  String.mk ("esp32-".toList ++ fmt02x mac.m0.val ++ fmt02x mac.m1.val ++ ['.']
    ++ fmt02x mac.m2.val ++ fmt02x mac.m3.val ++ ['.']
    ++ fmt02x mac.m4.val ++ fmt02x mac.m5.val)

/-- The libc function `strlen` on a buffer whose bytes are `s`, followed by a
terminating zero: the number of bytes before the first zero byte. -/
def strlen (s : List Nat) : Nat := (s.takeWhile (fun b => b ≠ 0)).length

/-- The indices `memcpy(dst, src, n)` reads in `src` and writes in `dst`. -/
def memcpyIndices (n : Nat) : List Nat := List.range n

/-- One byte of `memcpy`: read `src[i]` and store it in `dst[i]`.  The buffers
are exactly as long as the lists; an index outside `src` or outside `dst` is
an invalid access, `none`. -/
def copyByte (src : List Nat) (dst : List Nat) (i : Nat) : Option (List Nat) :=
  match src[i]? with
  | some b => if i < dst.length then some (dst.set i b) else none
  | none => none

/-- The libc function `memcpy(dst, src, n)`: byte `i` of `src` goes to byte
`i` of `dst`, for each `i` below `n`, in turn.  The result is `none` as soon
as one access falls outside its buffer (undefined behaviour in C). -/
def memcpy (dst src : List Nat) (n : Nat) : Option (List Nat) :=
  (memcpyIndices n).foldlM (copyByte src) dst

/-- The length argument the constructor passes to `memcpy`:
`strlen(s) < size ? strlen(s) : size`. -/
def copyLen (s : List Nat) (size : Nat) : Nat :=
  if strlen s < size then strlen s else size

/-- The libc function `strdup`: a fresh allocation holding the same bytes.
Strings are values here, so the copy shares nothing with its argument. -/
def strdup (s : Option String) : Option String := s

/-! ## The collaborators' answers -/

/-- What each collaborator call returns.  For a call with an out-parameter the
record gives the out-parameter's content after the call as well. -/
structure Driver where
  esp_read_mac : Mac
  esp_netif_create_default_wifi_sta : Ptr
  esp_wifi_init : EspErr
  esp_event_handler_instance_register : EventBase → EspErr × Ptr
  esp_wifi_set_mode : EspErr
  esp_wifi_set_config : EspErr
  esp_wifi_start : EspErr
  esp_netif_set_hostname : EspErr
  esp_wifi_connect : EspErr
  esp_wifi_sta_get_ap_info : ApRecord → EspErr × ApRecord
  esp_event_handler_instance_unregister : EventBase → EspErr

/-! ## The class `wifiStation` -/

/-- The private data members of `class wifiStation` (`wifiStation.hpp`). -/
structure wifiStation where
  wifiSta : Ptr
  hostName : Option String
  verboseLoggin : Bool
  wlEventHandlerInstance : Ptr
  ipEventHandlerInstance : Ptr
  deriving DecidableEq, Repr

namespace wifiStation

/-- The object before a constructor body runs: `hostName = NULL` and
`verboseLoggin = false` by their default member initialisers; the three
members without one hold whatever the storage held (`g0`, `g1`, `g2`). -/
def fresh (g0 g1 g2 : Ptr) : wifiStation :=
  { wifiSta := g0, hostName := none, verboseLoggin := false,
    wlEventHandlerInstance := g1, ipEventHandlerInstance := g2 }

/-- The member function `wifiStation::setup(wifiConfig, hostname, verbose)`.
The test `hostName == NULL` reads the data member `hostName`, not the
parameter `hostname`. -/
def setup (self : wifiStation) (drv : Driver) (wifiConfig : WifiConfig)
    (hostname : Option String) (verbose : Bool) : Run wifiStation := do
  let self := { self with verboseLoggin := verbose }
  let self ←
    (if self.hostName = none then do
      call (Call.esp_read_mac ESP_MAC_WIFI_STA)
      pure { self with hostName := some (asprintfHostName drv.esp_read_mac) }
    else
      pure { self with hostName := strdup hostname })
  call Call.esp_netif_create_default_wifi_sta
  let self := { self with wifiSta := drv.esp_netif_create_default_wifi_sta }
  assert self.wifiSta
  call Call.esp_wifi_init
  ESP_ERROR_CHECK drv.esp_wifi_init
  call (Call.esp_event_handler_instance_register EventBase.WIFI_EVENT ESP_EVENT_ANY_ID)
  let self := { self with
    wlEventHandlerInstance := (drv.esp_event_handler_instance_register EventBase.WIFI_EVENT).2 }
  ESP_ERROR_CHECK (drv.esp_event_handler_instance_register EventBase.WIFI_EVENT).1
  call (Call.esp_event_handler_instance_register EventBase.IP_EVENT ESP_EVENT_ANY_ID)
  let self := { self with
    ipEventHandlerInstance := (drv.esp_event_handler_instance_register EventBase.IP_EVENT).2 }
  ESP_ERROR_CHECK (drv.esp_event_handler_instance_register EventBase.IP_EVENT).1
  call (Call.esp_wifi_set_mode WIFI_MODE_STA)
  ESP_ERROR_CHECK drv.esp_wifi_set_mode
  call (Call.esp_wifi_set_config WIFI_IF_STA wifiConfig)
  ESP_ERROR_CHECK drv.esp_wifi_set_config
  call Call.esp_wifi_start
  ESP_ERROR_CHECK drv.esp_wifi_start
  pure self

/-- The configuration after `memset(&wifiConfig, 0, sizeof(wifi_config_t))`. -/
def zeroConfig : WifiConfig :=
  { sta := { ssid := List.replicate SSID_SIZE 0, password := List.replicate PASSWORD_SIZE 0,
             bssid_set := false, bssid := List.replicate 6 0, channel := 0,
             pmf_cfg := { capable := false, required := false } } }

/-- The local `wifiConfig` the constructor
`wifiStation(const char *ssid, const char *password, const char *hostName, bool verbose)`
hands to `setup`: `memset`, the two `memcpy` calls with their clamped length
arguments, the two flag stores.  The value is `none` when one of the `memcpy`
calls makes an invalid access. -/
def credentialsConfig (ssid password : List Nat) : Option WifiConfig := do
  let wifiConfig := zeroConfig
  let ssidField ← memcpy wifiConfig.sta.ssid ssid (copyLen ssid SSID_SIZE)
  let wifiConfig := { wifiConfig with sta := { wifiConfig.sta with ssid := ssidField } }
  let passwordField ←
    memcpy wifiConfig.sta.password password (copyLen password PASSWORD_SIZE)
  let wifiConfig := { wifiConfig with sta := { wifiConfig.sta with password := passwordField } }
  let wifiConfig := { wifiConfig with sta := { wifiConfig.sta with
    pmf_cfg := { wifiConfig.sta.pmf_cfg with capable := true } } }
  let wifiConfig := { wifiConfig with sta := { wifiConfig.sta with
    pmf_cfg := { wifiConfig.sta.pmf_cfg with required := false } } }
  pure wifiConfig

/-- The constructor
`wifiStation(const char *ssid, const char *password, const char *hostName, bool verbose)`,
run on the object `fresh g0 g1 g2`.  The value is `none` when building the
configuration makes an invalid memory access, and otherwise the run of `setup`
on the configuration built. -/
def wifiStation (g0 g1 g2 : Ptr) (drv : Driver) (ssid password : List Nat)
    (hostName : Option String) (verbose : Bool) : Option (Run WifiStation.wifiStation) := do
  let wifiConfig ← credentialsConfig ssid password
  pure (setup (fresh g0 g1 g2) drv wifiConfig hostName verbose)

/-- The constructor
`wifiStation(wifi_sta_config_t wifiStaConfig, const char *hostName, bool verbose)`,
run on the object `fresh g0 g1 g2`. -/
def wifiStationFromStaConfig (g0 g1 g2 : Ptr) (drv : Driver) (wifiStaConfig : WifiStaConfig)
    (hostName : Option String) (verbose : Bool) : Run WifiStation.wifiStation :=
  let wifiConfig := zeroConfig
  let wifiConfig := { wifiConfig with sta := wifiStaConfig }
  setup (fresh g0 g1 g2) drv wifiConfig hostName verbose

/-- The static member function `wifiStation::eventHandler(arg, event_base,
event_id, event_data)`, with `arg` already cast to the instance.  It returns
`void`; the value given back here is the state of `*Instance` on return. -/
def eventHandler (drv : Driver) (Instance : WifiStation.wifiStation) (event_base : EventBase)
    (event_id : Int) : Run WifiStation.wifiStation := do
  if event_base = EventBase.WIFI_EVENT then
    if event_id = WIFI_EVENT_WIFI_READY then
      LOGI Instance.verboseLoggin "wifiStation::eventHandler" "WiFi ready"
    else if event_id = WIFI_EVENT_SCAN_DONE then
      LOGI Instance.verboseLoggin "wifiStation::eventHandler" "Finish scanning AP"
    else if event_id = WIFI_EVENT_STA_START then do
      LOGI Instance.verboseLoggin "wifiStation::eventHandler" "Station start"
      call (Call.esp_netif_set_hostname Instance.wifiSta Instance.hostName)
      ESP_ERROR_CHECK drv.esp_netif_set_hostname
      call Call.esp_wifi_connect
    else if event_id = WIFI_EVENT_STA_STOP then
      LOGI Instance.verboseLoggin "wifiStation::eventHandler" "Station stop"
    else if event_id = WIFI_EVENT_STA_CONNECTED then
      LOGI Instance.verboseLoggin "wifiStation::eventHandler" "Connected to AP"
    else if event_id = WIFI_EVENT_STA_DISCONNECTED then do
      LOGI Instance.verboseLoggin "wifiStation::eventHandler" "Disconnected from AP"
      call Call.esp_wifi_connect
    else if event_id = WIFI_EVENT_STA_AUTHMODE_CHANGE then
      LOGI Instance.verboseLoggin "wifiStation::eventHandler"
        "Auth mode of AP connected by station changed"
    else
      LOGI Instance.verboseLoggin "wifiStation::eventHandler" "Unhandled WiFi Event"
  else if event_base = EventBase.IP_EVENT then
    if event_id = IP_EVENT_STA_GOT_IP then
      LOGI Instance.verboseLoggin "wifiStation::eventHandler" "station got IP from connected AP"
    else if event_id = IP_EVENT_STA_LOST_IP then
      LOGI Instance.verboseLoggin "wifiStation::eventHandler" "Station lost IP"
    else if event_id = IP_EVENT_GOT_IP6 then
      call (Call.ESP_LOGI "wifiStation::eventHandler" "Station interface v6IP addr is preferred")
    else
      LOGI Instance.verboseLoggin "wifiStation::eventHandler" "Unhandled IP Event"
  pure Instance

/-- The member function `wifiStation::getApInfo()`.  The local `ap_info` is
not initialised: `ap_info` is what its storage holds on entry. -/
def getApInfo (_self : WifiStation.wifiStation) (drv : Driver) (ap_info : ApRecord) :
    Run ApRecord := do
  call Call.esp_wifi_sta_get_ap_info
  let ap_info' := (drv.esp_wifi_sta_get_ap_info ap_info).2
  ESP_ERROR_CHECK_WITHOUT_ABORT (drv.esp_wifi_sta_get_ap_info ap_info).1
  pure ap_info'

/-- The member function `wifiStation::getNetIf()`. -/
def getNetIf (self : WifiStation.wifiStation) : Ptr := self.wifiSta

/-- The destructor `wifiStation::~wifiStation()`; the value is the object's
state when the destructor body ends. -/
def destroy (self : WifiStation.wifiStation) (drv : Driver) : Run WifiStation.wifiStation := do
  call (Call.esp_event_handler_instance_unregister EventBase.WIFI_EVENT ESP_EVENT_ANY_ID
    self.wlEventHandlerInstance)
  ESP_ERROR_CHECK (drv.esp_event_handler_instance_unregister EventBase.WIFI_EVENT)
  call (Call.esp_event_handler_instance_unregister EventBase.IP_EVENT ESP_EVENT_ANY_ID
    self.ipEventHandlerInstance)
  ESP_ERROR_CHECK (drv.esp_event_handler_instance_unregister EventBase.IP_EVENT)
  call (Call.free self.hostName)
  let self := { self with wlEventHandlerInstance := NULL }
  let self := { self with ipEventHandlerInstance := NULL }
  let self := { self with hostName := none }
  pure self

end wifiStation

/-- The event loop delivering events to one instance's handler, one after the
other; each delivery comes with the collaborators' answers during it.  An
abort inside a delivery ends the run. -/
def deliver (Instance : wifiStation) : List (Driver × EventBase × Int) → Run wifiStation
  | [] => pure Instance
  | (drv, event_base, event_id) :: rest => do
    let Instance ← wifiStation.eventHandler drv Instance event_base event_id
    deliver Instance rest

/-! ## Observations on traces -/

/-- Log entries: the calls of `ESP_LOGI`. -/
def Call.isLog : Call → Bool
  | Call.ESP_LOGI _ _ => true
  | _ => false

/-- Hostname-set calls. -/
def Call.isSetHostname : Call → Bool
  | Call.esp_netif_set_hostname _ _ => true
  | _ => false

/-- The calls of a trace that go to the driver, the network interface or the
event loop: everything but log entries. -/
def serviceCalls (cs : List Call) : List Call := cs.filter (fun c => !c.isLog)

/-- The log entries of a trace. -/
def logEntries (cs : List Call) : List Call := cs.filter Call.isLog

/-- The number of connect requests in a trace. -/
def connectRequests (cs : List Call) : Nat := cs.count Call.esp_wifi_connect

/-- The number of hostname-set calls in a trace. -/
def hostnameSets (cs : List Call) : Nat := cs.countP Call.isSetHostname

/-! ## Concrete collaborators and objects used in examples -/

/-- An access-point record. -/
def apHome : ApRecord :=
  { bssid := [0, 17, 34, 51, 68, 85], ssid := [104, 111, 109, 101], primary := 6,
    rssi := -40, authmode := 3 }

/-- Another access-point record. -/
def apBlank : ApRecord :=
  { bssid := [0, 0, 0, 0, 0, 0], ssid := [], primary := 0, rssi := 0, authmode := 0 }

/-- Collaborators whose every call succeeds; the hardware address is
`01:02:03:04:05:06`. -/
def okDriver : Driver :=
  { esp_read_mac := { m0 := 1, m1 := 2, m2 := 3, m3 := 4, m4 := 5, m5 := 6 },
    esp_netif_create_default_wifi_sta := 4096,
    esp_wifi_init := ESP_OK,
    esp_event_handler_instance_register := fun b =>
      if b = EventBase.WIFI_EVENT then (ESP_OK, 8192) else (ESP_OK, 8200),
    esp_wifi_set_mode := ESP_OK,
    esp_wifi_set_config := ESP_OK,
    esp_wifi_start := ESP_OK,
    esp_netif_set_hostname := ESP_OK,
    esp_wifi_connect := ESP_OK,
    esp_wifi_sta_get_ap_info := fun _ => (ESP_OK, apHome),
    esp_event_handler_instance_unregister := fun _ => ESP_OK }

/-- As `okDriver`, but `esp_netif_set_hostname` fails with `ESP_FAIL`. -/
def hostnameFailDriver : Driver := { okDriver with esp_netif_set_hostname := -1 }

/-- A constructed object: interface at 4096, subscriptions at 8192 and 8200. -/
def sampleStation : wifiStation :=
  { wifiSta := 4096, hostName := some "esp32-0102.0304.0506", verboseLoggin := true,
    wlEventHandlerInstance := 8192, ipEventHandlerInstance := 8200 }

/-- The object `sampleStation` with logging switched off. -/
def quietStation : wifiStation := { sampleStation with verboseLoggin := false }

/-- As `okDriver`, but the associated-AP query fails with
`ESP_ERR_WIFI_NOT_CONNECT` and leaves the caller's buffer as it was. -/
def apInfoFailDriver : Driver :=
  { okDriver with esp_wifi_sta_get_ap_info := fun buf => (12303, buf) }

/-- As `okDriver`, but every unregister call fails with `ESP_FAIL`. -/
def unregisterFailDriver : Driver :=
  { okDriver with esp_event_handler_instance_unregister := fun _ => -1 }

/-! ## The steps of setup -/

/-- The collaborator calls of `setup` after the hostname is resolved, in
source order, for the configuration `wifiConfig`. -/
def setupSteps (wifiConfig : WifiConfig) : List Call :=
  [Call.esp_netif_create_default_wifi_sta,
   Call.esp_wifi_init,
   Call.esp_event_handler_instance_register EventBase.WIFI_EVENT ESP_EVENT_ANY_ID,
   Call.esp_event_handler_instance_register EventBase.IP_EVENT ESP_EVENT_ANY_ID,
   Call.esp_wifi_set_mode WIFI_MODE_STA,
   Call.esp_wifi_set_config WIFI_IF_STA wifiConfig,
   Call.esp_wifi_start]

/-- Whether each step of `setupSteps` succeeds under `drv`, in the same order:
a non-null interface handle, then `ESP_OK` from each driver call. -/
def stepResults (drv : Driver) : List Bool :=
  [decide (drv.esp_netif_create_default_wifi_sta ≠ NULL),
   decide (drv.esp_wifi_init = ESP_OK),
   decide ((drv.esp_event_handler_instance_register EventBase.WIFI_EVENT).1 = ESP_OK),
   decide ((drv.esp_event_handler_instance_register EventBase.IP_EVENT).1 = ESP_OK),
   decide (drv.esp_wifi_set_mode = ESP_OK),
   decide (drv.esp_wifi_set_config = ESP_OK),
   decide (drv.esp_wifi_start = ESP_OK)]

/-- The number of steps that succeed before the first failing one. -/
def stepsPassed (drv : Driver) : Nat := ((stepResults drv).takeWhile id).length

/-- Every step of setup succeeds under `drv`. -/
def setupOk (drv : Driver) : Bool := (stepResults drv).all id

/-- The hostname-resolution call of `setup` on the object `self`. -/
def hostNameCalls (self : wifiStation) : List Call :=
  if self.hostName = none then [Call.esp_read_mac ESP_MAC_WIFI_STA] else []

/-- As `okDriver`, but `esp_wifi_set_mode` fails with `ESP_FAIL`. -/
def setModeFailDriver : Driver := { okDriver with esp_wifi_set_mode := -1 }

/-! ## The hostname as the specification words it -/

/-- One lowercase hexadecimal digit, for a value below sixteen. -/
def specHexDigit (d : Nat) : Char := "0123456789abcdef".toList.getD d '0'

/-- The two-digit, zero-padded, lowercase hexadecimal rendering of a byte, as
the specification words it: high nibble, then low nibble. -/
def specHex2 (b : Fin 256) : List Char := [specHexDigit (b.val / 16), specHexDigit (b.val % 16)]

/-- The synthesized hostname as the specification words it:
`"esp32-" ++ hex2(m0) ++ hex2(m1) ++ "." ++ hex2(m2) ++ hex2(m3) ++ "." ++ hex2(m4) ++ hex2(m5)`. -/
def specHostName (mac : Mac) : String :=
  String.mk ("esp32-".toList ++ specHex2 mac.m0 ++ specHex2 mac.m1 ++ ".".toList
    ++ specHex2 mac.m2 ++ specHex2 mac.m3 ++ ".".toList ++ specHex2 mac.m4 ++ specHex2 mac.m5)

/-- A lowercase hexadecimal digit: `0`..`9` or `a`..`f`. -/
def isLowerHex (c : Char) : Bool :=
  (decide ('0' ≤ c) && decide (c ≤ '9')) || (decide ('a' ≤ c) && decide (c ≤ 'f'))

/-- The pattern `esp32-HHHH.HHHH.HHHH`, each `H` a lowercase hexadecimal digit. -/
def matchesHostPattern (name : String) : Bool :=
  decide (name.toList.length = 20)
  && decide (name.toList.take 6 = "esp32-".toList)
  && decide (name.toList.getD 10 ' ' = '.')
  && decide (name.toList.getD 15 ' ' = '.')
  && [6, 7, 8, 9, 11, 12, 13, 14, 16, 17, 18, 19].all
      (fun i => isLowerHex (name.toList.getD i ' '))

/-- The hardware address `de:ad:be:ef:00:7f`. -/
def sampleMac : Mac := { m0 := 222, m1 := 173, m2 := 190, m3 := 239, m4 := 0, m5 := 127 }

/-- As `okDriver`, with the hardware address `sampleMac`. -/
def sampleMacDriver : Driver := { okDriver with esp_read_mac := sampleMac }

/-- A hostname the caller supplies. -/
def callerHostName : String := "my-device"

/-- The bytes of a 40-character SSID: the values 1 to 40. -/
def longSsid : List Nat := (List.range 40).map (fun i => i + 1)

/-- The bytes of a 3-character passphrase. -/
def shortPassword : List Nat := [112, 119, 100]

/-- The configuration the credentials constructor is to build, as the
specification words it: each credential field holds the bytes of the input
before its terminator, cut at the field size, then zeros up to the field size;
protected management frames capable and not required; all else zero. -/
def specCredentialsConfig (ssid password : List Nat) : WifiConfig :=
  { sta := { ssid := ssid.take (min (strlen ssid) SSID_SIZE)
                      ++ List.replicate (SSID_SIZE - min (strlen ssid) SSID_SIZE) 0,
             password := password.take (min (strlen password) PASSWORD_SIZE)
                      ++ List.replicate (PASSWORD_SIZE - min (strlen password) PASSWORD_SIZE) 0,
             bssid_set := false, bssid := List.replicate 6 0, channel := 0,
             pmf_cfg := { capable := true, required := false } } }

/-! ## Theorems -/

section Basics

@[simp] theorem Run.calls_pure {α : Type} (a : α) : (pure a : Run α).calls = [] := rfl

@[simp] theorem Run.value_pure {α : Type} (a : α) : (pure a : Run α).value = some a := rfl

@[simp] theorem Run.calls_call (c : Call) : (call c).calls = [c] := rfl

@[simp] theorem Run.value_call (c : Call) : (call c).value = some () := rfl

theorem Run.bind_def {α β : Type} (m : Run α) (f : α → Run β) :
    (m >>= f) = Run.andThen m f := rfl

@[simp] theorem Run.call_bind {β : Type} (c : Call) (f : Unit → Run β) :
    (call c >>= f) = ⟨c :: (f ()).calls, (f ()).value⟩ := rfl

@[simp] theorem Run.pure_bind {α β : Type} (a : α) (f : α → Run β) :
    ((pure a : Run α) >>= f) = f a := by
  show Run.andThen (Run.ret a) f = f a
  simp [Run.andThen, Run.ret]

@[simp] theorem Run.abort_bind {α β : Type} (f : α → Run β) :
    ((abort : Run α) >>= f) = (abort : Run β) := rfl

@[simp] theorem Run.calls_abort {α : Type} : (abort : Run α).calls = [] := rfl

@[simp] theorem Run.value_abort {α : Type} : (abort : Run α).value = none := rfl

@[simp] theorem LOGI_bind {β : Type} (v : Bool) (t m : String) (f : Unit → Run β) :
    (LOGI v t m >>= f)
      = ⟨(if v then [Call.ESP_LOGI t m] else []) ++ (f ()).calls, (f ()).value⟩ := by
  cases v <;> simp [LOGI]

@[simp] theorem ESP_ERROR_CHECK_bind {β : Type} (e : EspErr) (f : Unit → Run β) :
    (ESP_ERROR_CHECK e >>= f) = if e = ESP_OK then f () else abort := by
  unfold ESP_ERROR_CHECK
  split <;> simp

@[simp] theorem Run.mk_some_bind {α β : Type} (cs : List Call) (a : α) (f : α → Run β) :
    ((⟨cs, some a⟩ : Run α) >>= f) = ⟨cs ++ (f a).calls, (f a).value⟩ := rfl

@[simp] theorem Run.mk_none_bind {α β : Type} (cs : List Call) (f : α → Run β) :
    ((⟨cs, none⟩ : Run α) >>= f) = ⟨cs, none⟩ := rfl

@[simp] theorem assert_bind {β : Type} (p : Ptr) (f : Unit → Run β) :
    (assert p >>= f) = if p = NULL then abort else f () := by
  unfold assert
  split <;> simp

end Basics

/-! ### Memory: `strlen` and `memcpy` -/

/-- One more byte copied: `memcpy` of `n + 1` bytes is `memcpy` of `n` bytes
followed by the copy of byte `n`. -/
theorem memcpy_succ (dst src : List Nat) (n : Nat) :
    memcpy dst src (n + 1) = (memcpy dst src n).bind (fun d => copyByte src d n) := by
  unfold memcpy memcpyIndices
  rw [List.range_succ, List.foldlM_append]
  simp

/-- A `memcpy` within both buffers succeeds: the destination keeps its size,
holds the source bytes below `n` and what it held from `n` on. -/
theorem memcpy_in_bounds (dst src : List Nat) (n : Nat) (hd : n ≤ dst.length)
    (hs : n ≤ src.length) :
    ∃ r, memcpy dst src n = some r ∧ r.length = dst.length
      ∧ ∀ i, r[i]? = if i < n then src[i]? else dst[i]? := by
  induction n with
  | zero => exact ⟨dst, rfl, rfl, fun i => by simp⟩
  | succ n ih =>
    obtain ⟨d, hd1, hd2, hd3⟩ := ih (by omega) (by omega)
    have hsn : n < src.length := by omega
    have hdn : n < d.length := by omega
    refine ⟨d.set n src[n], ?_, by simp [hd2], ?_⟩
    · rw [memcpy_succ, hd1]
      simp [copyByte, List.getElem?_eq_getElem hsn, hdn]
    · intro i
      rw [List.getElem?_set, hd3 i]
      by_cases h : n = i
      · subst h
        simp [hdn, List.getElem?_eq_getElem hsn]
      · by_cases h2 : i < n
        · have h3 : i < n + 1 := by omega
          simp [h, h2, h3]
        · have h3 : ¬ i < n + 1 := by omega
          simp [h, h2, h3]

/-- A `memcpy` that succeeds stayed within both buffers, and the destination
kept its size. -/
theorem memcpy_some_bounds (dst src : List Nat) (n : Nat) (r : List Nat)
    (h : memcpy dst src n = some r) :
    n ≤ dst.length ∧ n ≤ src.length ∧ r.length = dst.length := by
  induction n generalizing r with
  | zero =>
    have hr : r = dst := by
      have h0 : memcpy dst src 0 = some dst := rfl
      rw [h0] at h
      exact (Option.some.inj h).symm
    subst hr
    exact ⟨Nat.zero_le _, Nat.zero_le _, rfl⟩
  | succ n ih =>
    rw [memcpy_succ] at h
    cases hm : memcpy dst src n with
    | none => simp [hm] at h
    | some d =>
      obtain ⟨h1, h2, h3⟩ := ih d hm
      rw [hm] at h
      simp only [Option.some_bind, copyByte] at h
      cases hb : src[n]? with
      | none => simp [hb] at h
      | some b =>
        rw [hb] at h
        by_cases hlt : n < d.length
        · simp only [hlt, if_true, Option.some.injEq] at h
          subst h
          have hsl : n < src.length := by
            by_contra hc
            have : src[n]? = none := List.getElem?_eq_none (by omega)
            rw [this] at hb
            exact absurd hb (by simp)
          refine ⟨by omega, by omega, by simp [h3]⟩
        · simp [hlt] at h

/-- A `memcpy` longer than its destination or its source is an invalid access. -/
theorem memcpy_out_of_bounds (dst src : List Nat) (n : Nat)
    (h : dst.length < n ∨ src.length < n) : memcpy dst src n = none := by
  cases hm : memcpy dst src n with
  | none => rfl
  | some r =>
    obtain ⟨h1, h2, -⟩ := memcpy_some_bounds dst src n r hm
    omega

/-- The length argument of the constructor is the smaller of `strlen` and the
field size. -/
theorem copyLen_eq_min (s : List Nat) (size : Nat) : copyLen s size = min (strlen s) size := by
  unfold copyLen
  split <;> omega

/-- The function `strlen` never counts past the buffer. -/
theorem strlen_le_length (s : List Nat) : strlen s ≤ s.length := by
  unfold strlen
  exact (List.takeWhile_sublist _).length_le

/-- On a buffer without a zero byte `strlen` is the number of bytes. -/
theorem strlen_eq_length (s : List Nat) (h : ∀ b ∈ s, b ≠ 0) : strlen s = s.length := by
  unfold strlen
  rw [List.takeWhile_eq_self_iff.mpr]
  intro b hb
  simpa using h b hb

/-- A zeroed field after the constructor's truncating copy: the copy succeeds
and leaves the first `min (strlen s) size` bytes of `s`, then zeros up to the
field size. -/
theorem truncating_copy (s : List Nat) (size : Nat) :
    memcpy (List.replicate size 0) s (copyLen s size)
      = some (s.take (min (strlen s) size)
          ++ List.replicate (size - min (strlen s) size) 0) := by
  rw [copyLen_eq_min]
  have hle := strlen_le_length s
  obtain ⟨r, hr, -, hget⟩ := memcpy_in_bounds (List.replicate size 0) s (min (strlen s) size)
    (by simp) (by omega)
  rw [hr]
  congr 1
  apply List.ext_getElem?
  intro i
  rw [hget i, List.getElem?_append, List.getElem?_take,
    List.getElem?_replicate, List.getElem?_replicate, List.length_take]
  have hmin : min (min (strlen s) size) s.length = min (strlen s) size := by omega
  rw [hmin]
  by_cases h : i < min (strlen s) size
  · simp [h]
  · by_cases h2 : i < size
    · have h3 : i - min (strlen s) size < size - min (strlen s) size := by omega
      simp [h, h2, h3]
    · have h3 : ¬ i - min (strlen s) size < size - min (strlen s) size := by omega
      simp [h, h2, h3]

/-- The constructor's two copies succeed, and the configuration it builds is
the one of the specification. -/
theorem credentialsConfig_eq_spec (ssid password : List Nat) :
    wifiStation.credentialsConfig ssid password = some (specCredentialsConfig ssid password) := by
  unfold wifiStation.credentialsConfig
  have hs := truncating_copy ssid SSID_SIZE
  have hp := truncating_copy password PASSWORD_SIZE
  simp only [wifiStation.zeroConfig]
  rw [hs]
  simp only [Option.bind_eq_bind, Option.some_bind]
  rw [hp]
  rfl

/-- The credentials constructor runs `setup` on the configuration of the
specification. -/
theorem wifiStation_eq_setup (g0 g1 g2 : Ptr) (drv : Driver) (ssid password : List Nat)
    (hostName : Option String) (verbose : Bool) :
    wifiStation.wifiStation g0 g1 g2 drv ssid password hostName verbose
      = some (wifiStation.setup (wifiStation.fresh g0 g1 g2) drv
          (specCredentialsConfig ssid password) hostName verbose) := by
  unfold wifiStation.wifiStation
  rw [credentialsConfig_eq_spec]
  rfl

/-- The trace and result of the handler on a radio-class station-start event. -/
theorem eventHandler_sta_start (drv : Driver) (inst : wifiStation) :
    wifiStation.eventHandler drv inst EventBase.WIFI_EVENT WIFI_EVENT_STA_START
      = ⟨(if inst.verboseLoggin then [Call.ESP_LOGI "wifiStation::eventHandler" "Station start"]
            else [])
          ++ (Call.esp_netif_set_hostname inst.wifiSta inst.hostName
            :: (if drv.esp_netif_set_hostname = ESP_OK then [Call.esp_wifi_connect] else [])),
         if drv.esp_netif_set_hostname = ESP_OK then some inst else none⟩ := by
  unfold wifiStation.eventHandler
  by_cases h : drv.esp_netif_set_hostname = ESP_OK <;>
    simp [h, WIFI_EVENT_STA_START, WIFI_EVENT_WIFI_READY, WIFI_EVENT_SCAN_DONE]

/-- The trace and result of the handler on a radio-class disconnected event. -/
theorem eventHandler_sta_disconnected (drv : Driver) (inst : wifiStation) :
    wifiStation.eventHandler drv inst EventBase.WIFI_EVENT WIFI_EVENT_STA_DISCONNECTED
      = ⟨(if inst.verboseLoggin
            then [Call.ESP_LOGI "wifiStation::eventHandler" "Disconnected from AP"] else [])
          ++ [Call.esp_wifi_connect], some inst⟩ := by
  unfold wifiStation.eventHandler
  simp [WIFI_EVENT_STA_DISCONNECTED, WIFI_EVENT_STA_START, WIFI_EVENT_WIFI_READY,
    WIFI_EVENT_SCAN_DONE, WIFI_EVENT_STA_STOP, WIFI_EVENT_STA_CONNECTED]

/-- On a radio-class event other than station-start and disconnected the
handler only logs, under the verbosity flag. -/
theorem eventHandler_wifi_log_only (drv : Driver) (inst : wifiStation) (id : Int)
    (h1 : id ≠ WIFI_EVENT_STA_START) (h2 : id ≠ WIFI_EVENT_STA_DISCONNECTED) :
    ∃ m : String, wifiStation.eventHandler drv inst EventBase.WIFI_EVENT id
      = ⟨if inst.verboseLoggin then [Call.ESP_LOGI "wifiStation::eventHandler" m] else [],
         some inst⟩ := by
  unfold wifiStation.eventHandler
  simp only [if_true, if_neg h1, if_neg h2]
  generalize inst.verboseLoggin = v
  cases v <;> simp only [Bool.false_eq_true, if_false, if_true] <;> split_ifs <;>
    first | exact ⟨"", rfl⟩ | exact ⟨_, rfl⟩

/-- On IP-class got-IPv6 the handler logs whatever the verbosity flag. -/
theorem eventHandler_ip_got_ip6 (drv : Driver) (inst : wifiStation) :
    wifiStation.eventHandler drv inst EventBase.IP_EVENT IP_EVENT_GOT_IP6
      = ⟨[Call.ESP_LOGI "wifiStation::eventHandler" "Station interface v6IP addr is preferred"],
         some inst⟩ := by
  unfold wifiStation.eventHandler
  simp [IP_EVENT_GOT_IP6, IP_EVENT_STA_GOT_IP, IP_EVENT_STA_LOST_IP]

/-- On an IP-class event other than got-IPv6 the handler only logs, under the
verbosity flag. -/
theorem eventHandler_ip_log_only (drv : Driver) (inst : wifiStation) (id : Int)
    (h : id ≠ IP_EVENT_GOT_IP6) :
    ∃ m : String, wifiStation.eventHandler drv inst EventBase.IP_EVENT id
      = ⟨if inst.verboseLoggin then [Call.ESP_LOGI "wifiStation::eventHandler" m] else [],
         some inst⟩ := by
  unfold wifiStation.eventHandler
  have hb : ¬ (EventBase.IP_EVENT = EventBase.WIFI_EVENT) := by decide
  simp only [if_true, if_neg hb, if_neg h]
  generalize inst.verboseLoggin = v
  cases v <;> simp only [Bool.false_eq_true, if_false, if_true] <;> split_ifs <;>
    first | exact ⟨"", rfl⟩ | exact ⟨_, rfl⟩

/-- On an event of any other class the handler does nothing. -/
theorem eventHandler_other_class (drv : Driver) (inst : wifiStation) (base : EventBase)
    (id : Int) (hw : base ≠ EventBase.WIFI_EVENT) (hi : base ≠ EventBase.IP_EVENT) :
    wifiStation.eventHandler drv inst base id = ⟨[], some inst⟩ := by
  unfold wifiStation.eventHandler
  simp only [if_neg hw, if_neg hi]
  rfl

/-- On every event other than radio-class station-start and disconnected the
handler returns the instance as it was, after at most one log entry; the entry
is there exactly when the class is subscribed and logging is on, or the event
is IP-class got-IPv6. -/
theorem eventHandler_quiet (drv : Driver) (inst : wifiStation) (base : EventBase) (id : Int)
    (h : ¬ (base = EventBase.WIFI_EVENT ∧
        (id = WIFI_EVENT_STA_START ∨ id = WIFI_EVENT_STA_DISCONNECTED))) :
    ∃ l : List Call,
      wifiStation.eventHandler drv inst base id = ⟨l, some inst⟩ ∧
      (l = [] ∨ ∃ t m, l = [Call.ESP_LOGI t m]) ∧
      (l ≠ [] ↔ (((base = EventBase.WIFI_EVENT ∨ base = EventBase.IP_EVENT)
            ∧ inst.verboseLoggin = true) ∨ (base = EventBase.IP_EVENT ∧ id = IP_EVENT_GOT_IP6))) := by
  cases base with
  | WIFI_EVENT =>
    have h1 : id ≠ WIFI_EVENT_STA_START := fun e => h ⟨rfl, Or.inl e⟩
    have h2 : id ≠ WIFI_EVENT_STA_DISCONNECTED := fun e => h ⟨rfl, Or.inr e⟩
    obtain ⟨m, hm⟩ := eventHandler_wifi_log_only drv inst id h1 h2
    refine ⟨_, hm, ?_, ?_⟩ <;> cases inst.verboseLoggin <;> simp
  | IP_EVENT =>
    by_cases h6 : id = IP_EVENT_GOT_IP6
    · subst h6
      exact ⟨_, eventHandler_ip_got_ip6 drv inst, Or.inr ⟨_, _, rfl⟩, by simp⟩
    · obtain ⟨m, hm⟩ := eventHandler_ip_log_only drv inst id h6
      refine ⟨_, hm, ?_, ?_⟩ <;> cases inst.verboseLoggin <;> simp [h6]
  | other tag =>
    exact ⟨[], eventHandler_other_class drv inst _ id (by simp) (by simp), Or.inl rfl, by simp⟩

/-- C4 (amended): on a radio-class station-start event, for every controller
state and verbosity, the handler first calls hostname-set on the controller's
own interface handle with its owned hostname; when that call returns ok it then
issues exactly one connect request, makes no other driver or interface call,
ignores the connect result and returns; when hostname-set fails it aborts and
no connect request is issued. -/
theorem C4_station_start (drv : Driver) (inst : wifiStation) :
    serviceCalls (wifiStation.eventHandler drv inst EventBase.WIFI_EVENT WIFI_EVENT_STA_START).calls
      = (if drv.esp_netif_set_hostname = ESP_OK
          then [Call.esp_netif_set_hostname inst.wifiSta inst.hostName, Call.esp_wifi_connect]
          else [Call.esp_netif_set_hostname inst.wifiSta inst.hostName])
    ∧ (wifiStation.eventHandler drv inst EventBase.WIFI_EVENT WIFI_EVENT_STA_START).value
      = (if drv.esp_netif_set_hostname = ESP_OK then some inst else none)
    ∧ ∀ e : EspErr,
        wifiStation.eventHandler { drv with esp_wifi_connect := e } inst
            EventBase.WIFI_EVENT WIFI_EVENT_STA_START
          = wifiStation.eventHandler drv inst EventBase.WIFI_EVENT WIFI_EVENT_STA_START := by
  refine ⟨?_, ?_, ?_⟩
  · rw [eventHandler_sta_start]
    cases inst.verboseLoggin <;> by_cases h : drv.esp_netif_set_hostname = ESP_OK <;>
      simp [serviceCalls, Call.isLog, h]
  · rw [eventHandler_sta_start]
  · intro e
    rw [eventHandler_sta_start, eventHandler_sta_start]

/-- C4 (as stated) fails: when hostname-set returns an error the handler
aborts after that call, and the call sequence holds no connect request. -/
theorem C4_counterexample :
    serviceCalls (wifiStation.eventHandler hostnameFailDriver sampleStation
        EventBase.WIFI_EVENT WIFI_EVENT_STA_START).calls
      ≠ [Call.esp_netif_set_hostname sampleStation.wifiSta sampleStation.hostName,
         Call.esp_wifi_connect]
    ∧ connectRequests (wifiStation.eventHandler hostnameFailDriver sampleStation
        EventBase.WIFI_EVENT WIFI_EVENT_STA_START).calls = 0
    ∧ (wifiStation.eventHandler hostnameFailDriver sampleStation
        EventBase.WIFI_EVENT WIFI_EVENT_STA_START).aborted = true := by
  rw [eventHandler_sta_start]
  simp [serviceCalls, connectRequests, Call.isLog, hostnameFailDriver, okDriver, ESP_OK,
    sampleStation, Run.aborted]

/-- Delivering any number of disconnected events: one connect request per
event, no hostname-set call, and the run returns with the instance as it was. -/
theorem deliver_disconnected (inst : wifiStation) (ds : List Driver) :
    connectRequests (deliver inst (ds.map fun d =>
        (d, EventBase.WIFI_EVENT, WIFI_EVENT_STA_DISCONNECTED))).calls = ds.length
    ∧ hostnameSets (deliver inst (ds.map fun d =>
        (d, EventBase.WIFI_EVENT, WIFI_EVENT_STA_DISCONNECTED))).calls = 0
    ∧ (deliver inst (ds.map fun d =>
        (d, EventBase.WIFI_EVENT, WIFI_EVENT_STA_DISCONNECTED))).value = some inst := by
  induction ds with
  | nil => exact ⟨rfl, rfl, rfl⟩
  | cons d ds ih =>
    obtain ⟨ih1, ih2, ih3⟩ := ih
    simp only [List.map_cons, deliver, eventHandler_sta_disconnected, Run.bind_def, Run.andThen]
    refine ⟨?_, ?_, ih3⟩
    · cases inst.verboseLoggin <;>
        simp [connectRequests, List.count_cons] at ih1 ⊢ <;> omega
    · cases inst.verboseLoggin <;>
        simp [hostnameSets, List.countP_cons, Call.isSetHostname] at ih2 ⊢ <;> exact ih2

/-- C5: on a radio-class disconnected event, for every controller state,
verbosity and result of the connect call, the handler issues exactly one
connect request, no hostname-set call, and returns normally; n consecutive
disconnected events yield exactly n connect requests. -/
theorem C5_disconnected_reconnects (drv : Driver) (inst : wifiStation) :
    connectRequests (wifiStation.eventHandler drv inst
        EventBase.WIFI_EVENT WIFI_EVENT_STA_DISCONNECTED).calls = 1
    ∧ hostnameSets (wifiStation.eventHandler drv inst
        EventBase.WIFI_EVENT WIFI_EVENT_STA_DISCONNECTED).calls = 0
    ∧ (wifiStation.eventHandler drv inst
        EventBase.WIFI_EVENT WIFI_EVENT_STA_DISCONNECTED).value = some inst
    ∧ ∀ ds : List Driver,
        connectRequests (deliver inst (ds.map fun d =>
            (d, EventBase.WIFI_EVENT, WIFI_EVENT_STA_DISCONNECTED))).calls = ds.length
        ∧ (deliver inst (ds.map fun d =>
            (d, EventBase.WIFI_EVENT, WIFI_EVENT_STA_DISCONNECTED))).returned = true := by
  rw [eventHandler_sta_disconnected]
  refine ⟨?_, ?_, rfl, ?_⟩
  · cases inst.verboseLoggin <;> simp [connectRequests]
  · cases inst.verboseLoggin <;> simp [hostnameSets, Call.isSetHostname]
  · intro ds
    obtain ⟨h1, _, h3⟩ := deliver_disconnected inst ds
    exact ⟨h1, by simp [Run.returned, h3]⟩

/-- C6 (amended): on every event other than radio-class station-start and
disconnected the handler issues no connect request and no hostname-set call,
makes no driver or interface call at all, emits at most one log entry and
returns with every controller field unchanged.  A connect request is issued if
and only if the class is the radio class and the ID is disconnected, or the ID
is station-start and the hostname-set call returned ok. -/
theorem C6_other_events_only_log (drv : Driver) (inst : wifiStation) (base : EventBase)
    (id : Int) :
    (¬ (base = EventBase.WIFI_EVENT ∧
          (id = WIFI_EVENT_STA_START ∨ id = WIFI_EVENT_STA_DISCONNECTED)) →
      connectRequests (wifiStation.eventHandler drv inst base id).calls = 0
      ∧ hostnameSets (wifiStation.eventHandler drv inst base id).calls = 0
      ∧ serviceCalls (wifiStation.eventHandler drv inst base id).calls = []
      ∧ (wifiStation.eventHandler drv inst base id).calls.length ≤ 1
      ∧ (wifiStation.eventHandler drv inst base id).value = some inst)
    ∧ (0 < connectRequests (wifiStation.eventHandler drv inst base id).calls ↔
        base = EventBase.WIFI_EVENT ∧
          (id = WIFI_EVENT_STA_DISCONNECTED ∨
            (id = WIFI_EVENT_STA_START ∧ drv.esp_netif_set_hostname = ESP_OK))) := by
  have quiet : ¬ (base = EventBase.WIFI_EVENT ∧
          (id = WIFI_EVENT_STA_START ∨ id = WIFI_EVENT_STA_DISCONNECTED)) →
      connectRequests (wifiStation.eventHandler drv inst base id).calls = 0
      ∧ hostnameSets (wifiStation.eventHandler drv inst base id).calls = 0
      ∧ serviceCalls (wifiStation.eventHandler drv inst base id).calls = []
      ∧ (wifiStation.eventHandler drv inst base id).calls.length ≤ 1
      ∧ (wifiStation.eventHandler drv inst base id).value = some inst := by
    intro h
    obtain ⟨l, hl, hform, -⟩ := eventHandler_quiet drv inst base id h
    rw [hl]
    rcases hform with rfl | ⟨t, m, rfl⟩ <;>
      simp [connectRequests, hostnameSets, serviceCalls, Call.isLog, Call.isSetHostname]
  refine ⟨quiet, ?_⟩
  by_cases h : base = EventBase.WIFI_EVENT ∧
      (id = WIFI_EVENT_STA_START ∨ id = WIFI_EVENT_STA_DISCONNECTED)
  · obtain ⟨rfl, rfl | rfl⟩ := h
    · rw [eventHandler_sta_start]
      cases inst.verboseLoggin <;> by_cases hh : drv.esp_netif_set_hostname = ESP_OK <;>
        simp [connectRequests, hh, WIFI_EVENT_STA_START, WIFI_EVENT_STA_DISCONNECTED]
    · rw [eventHandler_sta_disconnected]
      cases inst.verboseLoggin <;> simp [connectRequests]
  · rw [(quiet h).1]
    constructor
    · intro h0
      exact absurd h0 (by decide)
    · rintro ⟨hb, hd | ⟨hs, -⟩⟩
      · exact absurd ⟨hb, Or.inr hd⟩ h
      · exact absurd ⟨hb, Or.inl hs⟩ h

/-- C6 (as stated) fails in its last sentence: a radio-class station-start
event whose hostname-set call fails yields no connect request. -/
theorem C6_counterexample :
    ¬ (0 < connectRequests (wifiStation.eventHandler hostnameFailDriver quietStation
          EventBase.WIFI_EVENT WIFI_EVENT_STA_START).calls ↔
        EventBase.WIFI_EVENT = EventBase.WIFI_EVENT ∧
          (WIFI_EVENT_STA_START = WIFI_EVENT_STA_START
            ∨ WIFI_EVENT_STA_START = WIFI_EVENT_STA_DISCONNECTED)) := by
  rw [eventHandler_sta_start]
  simp [connectRequests, hostnameFailDriver, okDriver, ESP_OK, quietStation, sampleStation]

/-- C6 at a concrete event: a connected event with logging on. -/
theorem C6_other_events_only_log_witness :
    connectRequests (wifiStation.eventHandler okDriver sampleStation
        EventBase.WIFI_EVENT WIFI_EVENT_STA_CONNECTED).calls = 0
    ∧ hostnameSets (wifiStation.eventHandler okDriver sampleStation
        EventBase.WIFI_EVENT WIFI_EVENT_STA_CONNECTED).calls = 0
    ∧ serviceCalls (wifiStation.eventHandler okDriver sampleStation
        EventBase.WIFI_EVENT WIFI_EVENT_STA_CONNECTED).calls = []
    ∧ (wifiStation.eventHandler okDriver sampleStation
        EventBase.WIFI_EVENT WIFI_EVENT_STA_CONNECTED).calls.length ≤ 1
    ∧ (wifiStation.eventHandler okDriver sampleStation
        EventBase.WIFI_EVENT WIFI_EVENT_STA_CONNECTED).value = some sampleStation :=
  (C6_other_events_only_log okDriver sampleStation EventBase.WIFI_EVENT
    WIFI_EVENT_STA_CONNECTED).1 (by decide)

/-- C10: for every event the handler emits a log entry if and only if the
class is the radio or the IP class and the verbosity flag is true, or the event
is IP-class got-IPv6; it never emits more than one entry; with verbosity false
every event other than got-IPv6 produces no log entry. -/
theorem C10_logging_respects_verbosity (drv : Driver) (inst : wifiStation) (base : EventBase)
    (id : Int) :
    (logEntries (wifiStation.eventHandler drv inst base id).calls ≠ [] ↔
      (((base = EventBase.WIFI_EVENT ∨ base = EventBase.IP_EVENT) ∧ inst.verboseLoggin = true)
        ∨ (base = EventBase.IP_EVENT ∧ id = IP_EVENT_GOT_IP6)))
    ∧ (logEntries (wifiStation.eventHandler drv inst base id).calls).length ≤ 1
    ∧ (inst.verboseLoggin = false → ¬ (base = EventBase.IP_EVENT ∧ id = IP_EVENT_GOT_IP6) →
        logEntries (wifiStation.eventHandler drv inst base id).calls = []) := by
  have key : (logEntries (wifiStation.eventHandler drv inst base id).calls ≠ [] ↔
      (((base = EventBase.WIFI_EVENT ∨ base = EventBase.IP_EVENT) ∧ inst.verboseLoggin = true)
        ∨ (base = EventBase.IP_EVENT ∧ id = IP_EVENT_GOT_IP6)))
      ∧ (logEntries (wifiStation.eventHandler drv inst base id).calls).length ≤ 1 := by
    by_cases h : base = EventBase.WIFI_EVENT ∧
        (id = WIFI_EVENT_STA_START ∨ id = WIFI_EVENT_STA_DISCONNECTED)
    · obtain ⟨rfl, rfl | rfl⟩ := h
      · rw [eventHandler_sta_start]
        cases inst.verboseLoggin <;> by_cases hh : drv.esp_netif_set_hostname = ESP_OK <;>
          simp [logEntries, Call.isLog, hh]
      · rw [eventHandler_sta_disconnected]
        cases inst.verboseLoggin <;> simp [logEntries, Call.isLog]
    · obtain ⟨l, hl, hform, hiff⟩ := eventHandler_quiet drv inst base id h
      rw [hl]
      have hlog : logEntries l = l := by
        rcases hform with rfl | ⟨t, m, rfl⟩ <;> simp [logEntries, Call.isLog]
      simp only [hlog]
      refine ⟨hiff, ?_⟩
      rcases hform with rfl | ⟨t, m, rfl⟩ <;> simp
  refine ⟨key.1, key.2, ?_⟩
  intro hv h6
  by_contra hne
  rcases key.1.mp hne with ⟨-, hv'⟩ | h6'
  · rw [hv] at hv'
    exact absurd hv' (by decide)
  · exact h6 h6'

/-- C10 at a concrete event: with logging off a connected event leaves no log entry. -/
theorem C10_logging_respects_verbosity_witness :
    logEntries (wifiStation.eventHandler okDriver quietStation
        EventBase.WIFI_EVENT WIFI_EVENT_STA_CONNECTED).calls = [] :=
  (C10_logging_respects_verbosity okDriver quietStation EventBase.WIFI_EVENT
    WIFI_EVENT_STA_CONNECTED).2.2 (by decide) (by decide)

/-- C7 (amended): `getApInfo` never aborts and always returns a record, namely
the content of its local buffer after the query: the driver's record when the
query succeeds; when the query fails the error is only reported and the buffer
content is returned as it is, whatever it holds. -/
theorem C7_getApInfo_returns_buffer (self : wifiStation) (drv : Driver) (ap_info : ApRecord) :
    (wifiStation.getApInfo self drv ap_info).value
      = some (drv.esp_wifi_sta_get_ap_info ap_info).2
    ∧ (wifiStation.getApInfo self drv ap_info).calls
      = Call.esp_wifi_sta_get_ap_info ::
          (if (drv.esp_wifi_sta_get_ap_info ap_info).1 = ESP_OK then []
            else [Call.ESP_LOGE (drv.esp_wifi_sta_get_ap_info ap_info).1]) := by
  unfold wifiStation.getApInfo ESP_ERROR_CHECK_WITHOUT_ABORT
  by_cases h : (drv.esp_wifi_sta_get_ap_info ap_info).1 = ESP_OK <;> simp [h]

/-- C7 (as stated) fails: after a failed query the value returned is the
uninitialised local buffer.  Two failed queries return different records, a
failed query can return the very record a successful one returns, and so no
fixed sentinel exists. -/
theorem C7_counterexample :
    (apInfoFailDriver.esp_wifi_sta_get_ap_info apHome).1 ≠ ESP_OK
    ∧ (wifiStation.getApInfo sampleStation apInfoFailDriver apHome).value
        ≠ (wifiStation.getApInfo sampleStation apInfoFailDriver apBlank).value
    ∧ (wifiStation.getApInfo sampleStation apInfoFailDriver apHome).value
        = (wifiStation.getApInfo sampleStation okDriver apBlank).value
    ∧ ¬ ∃ sentinel : ApRecord, ∀ (drv : Driver) (ap_info : ApRecord),
        (drv.esp_wifi_sta_get_ap_info ap_info).1 ≠ ESP_OK →
          (wifiStation.getApInfo sampleStation drv ap_info).value = some sentinel := by
  refine ⟨by decide, by decide, by decide, ?_⟩
  rintro ⟨sentinel, hs⟩
  have h1 := hs apInfoFailDriver apHome (by decide)
  have h2 := hs apInfoFailDriver apBlank (by decide)
  rw [← h2] at h1
  exact absurd h1 (by decide)

/-- The whole behaviour of `setup`: the hostname call, then the steps up to and
including the first failing one; the object is returned when every step
succeeds and the run aborts otherwise. -/
theorem setup_eq (self : wifiStation) (drv : Driver) (cfg : WifiConfig)
    (hostname : Option String) (verbose : Bool) :
    wifiStation.setup self drv cfg hostname verbose
      = ⟨hostNameCalls self ++ (setupSteps cfg).take (stepsPassed drv + 1),
         if setupOk drv = true then
           some { wifiSta := drv.esp_netif_create_default_wifi_sta,
                  hostName := if self.hostName = none
                    then some (asprintfHostName drv.esp_read_mac) else strdup hostname,
                  verboseLoggin := verbose,
                  wlEventHandlerInstance :=
                    (drv.esp_event_handler_instance_register EventBase.WIFI_EVENT).2,
                  ipEventHandlerInstance :=
                    (drv.esp_event_handler_instance_register EventBase.IP_EVENT).2 }
         else none⟩ := by
  unfold wifiStation.setup
  by_cases h1 : drv.esp_netif_create_default_wifi_sta = NULL
  · by_cases hn : self.hostName = none <;>
      simp [hn, h1, hostNameCalls, setupSteps, stepsPassed, stepResults, setupOk]
  by_cases h2 : drv.esp_wifi_init = ESP_OK
  swap
  · by_cases hn : self.hostName = none <;>
      simp [hn, h1, h2, hostNameCalls, setupSteps, stepsPassed, stepResults, setupOk]
  by_cases h3 : (drv.esp_event_handler_instance_register EventBase.WIFI_EVENT).1 = ESP_OK
  swap
  · by_cases hn : self.hostName = none <;>
      simp [hn, h1, h2, h3, hostNameCalls, setupSteps, stepsPassed, stepResults, setupOk]
  by_cases h4 : (drv.esp_event_handler_instance_register EventBase.IP_EVENT).1 = ESP_OK
  swap
  · by_cases hn : self.hostName = none <;>
      simp [hn, h1, h2, h3, h4, hostNameCalls, setupSteps, stepsPassed, stepResults, setupOk]
  by_cases h5 : drv.esp_wifi_set_mode = ESP_OK
  swap
  · by_cases hn : self.hostName = none <;>
      simp [hn, h1, h2, h3, h4, h5, hostNameCalls, setupSteps, stepsPassed, stepResults, setupOk]
  by_cases h6 : drv.esp_wifi_set_config = ESP_OK
  swap
  · by_cases hn : self.hostName = none <;>
      simp [hn, h1, h2, h3, h4, h5, h6, hostNameCalls, setupSteps, stepsPassed, stepResults,
        setupOk]
  by_cases h7 : drv.esp_wifi_start = ESP_OK <;> by_cases hn : self.hostName = none <;>
    simp [hn, h1, h2, h3, h4, h5, h6, h7, hostNameCalls, setupSteps, stepsPassed, stepResults,
      setupOk]

/-- In a list of seven step results, the number of leading successes is the
index of the first failure. -/
theorem stepsPassed_eq_first_failure (drv : Driver) (k : Nat) (hk : k < 7)
    (hfail : (stepResults drv).getD k true = false)
    (hbefore : ∀ j, j < k → (stepResults drv).getD j false = true) :
    stepsPassed drv = k := by
  unfold stepsPassed
  unfold stepResults at hfail hbefore ⊢
  generalize decide (drv.esp_netif_create_default_wifi_sta ≠ NULL) = b1 at hfail hbefore ⊢
  generalize decide (drv.esp_wifi_init = ESP_OK) = b2 at hfail hbefore ⊢
  generalize decide ((drv.esp_event_handler_instance_register EventBase.WIFI_EVENT).1 = ESP_OK)
    = b3 at hfail hbefore ⊢
  generalize decide ((drv.esp_event_handler_instance_register EventBase.IP_EVENT).1 = ESP_OK)
    = b4 at hfail hbefore ⊢
  generalize decide (drv.esp_wifi_set_mode = ESP_OK) = b5 at hfail hbefore ⊢
  generalize decide (drv.esp_wifi_set_config = ESP_OK) = b6 at hfail hbefore ⊢
  generalize decide (drv.esp_wifi_start = ESP_OK) = b7 at hfail hbefore ⊢
  have e0 := hbefore 0
  have e1 := hbefore 1
  have e2 := hbefore 2
  have e3 := hbefore 3
  have e4 := hbefore 4
  have e5 := hbefore 5
  clear hbefore
  interval_cases k <;> simp_all [List.takeWhile]

/-- C8: setup returns normally if and only if interface creation gives a
non-null handle and driver-init, both subscriptions, set-mode, set-config and
start all return ok; then the seven calls were made once each in that order,
set-config carried the configuration the constructor built, and `getNetIf`
returns the created handle.  If step `k` is the first to fail, the calls made
are exactly the steps up to and including `k`, and setup aborts. -/
theorem C8_setup_all_or_abort (self : wifiStation) (drv : Driver) (cfg : WifiConfig)
    (hostname : Option String) (verbose : Bool) :
    ((wifiStation.setup self drv cfg hostname verbose).returned = true ↔
        drv.esp_netif_create_default_wifi_sta ≠ NULL
        ∧ drv.esp_wifi_init = ESP_OK
        ∧ (drv.esp_event_handler_instance_register EventBase.WIFI_EVENT).1 = ESP_OK
        ∧ (drv.esp_event_handler_instance_register EventBase.IP_EVENT).1 = ESP_OK
        ∧ drv.esp_wifi_set_mode = ESP_OK
        ∧ drv.esp_wifi_set_config = ESP_OK
        ∧ drv.esp_wifi_start = ESP_OK)
    ∧ ((wifiStation.setup self drv cfg hostname verbose).returned = true →
        (wifiStation.setup self drv cfg hostname verbose).calls
          = hostNameCalls self ++ setupSteps cfg
        ∧ ∃ s, (wifiStation.setup self drv cfg hostname verbose).value = some s
            ∧ s.getNetIf = drv.esp_netif_create_default_wifi_sta
            ∧ s.getNetIf ≠ NULL)
    ∧ (∀ k, k < 7 → (stepResults drv).getD k true = false →
        (∀ j, j < k → (stepResults drv).getD j false = true) →
        (wifiStation.setup self drv cfg hostname verbose).calls
          = hostNameCalls self ++ (setupSteps cfg).take (k + 1)
        ∧ (wifiStation.setup self drv cfg hostname verbose).aborted = true)
    ∧ (∀ (g0 g1 g2 : Ptr) (ssid password : List Nat),
        ∃ wifiConfig, wifiStation.credentialsConfig ssid password = some wifiConfig
          ∧ wifiStation.wifiStation g0 g1 g2 drv ssid password hostname verbose
            = some (wifiStation.setup (wifiStation.fresh g0 g1 g2) drv
                wifiConfig hostname verbose))
    ∧ (∀ (g0 g1 g2 : Ptr) (wifiStaConfig : WifiStaConfig),
        wifiStation.wifiStationFromStaConfig g0 g1 g2 drv wifiStaConfig hostname verbose
          = wifiStation.setup (wifiStation.fresh g0 g1 g2) drv
              { sta := wifiStaConfig } hostname verbose) := by
  have hok : setupOk drv = true ↔
      (drv.esp_netif_create_default_wifi_sta ≠ NULL
        ∧ drv.esp_wifi_init = ESP_OK
        ∧ (drv.esp_event_handler_instance_register EventBase.WIFI_EVENT).1 = ESP_OK
        ∧ (drv.esp_event_handler_instance_register EventBase.IP_EVENT).1 = ESP_OK
        ∧ drv.esp_wifi_set_mode = ESP_OK
        ∧ drv.esp_wifi_set_config = ESP_OK
        ∧ drv.esp_wifi_start = ESP_OK) := by
    simp [setupOk, stepResults]
  have hret : (wifiStation.setup self drv cfg hostname verbose).returned = true ↔
      setupOk drv = true := by
    rw [setup_eq]
    cases setupOk drv <;> simp [Run.returned]
  refine ⟨hret.trans hok, ?_, ?_,
    fun g0 g1 g2 ssid password => ⟨_, credentialsConfig_eq_spec ssid password,
      wifiStation_eq_setup g0 g1 g2 drv ssid password hostname verbose⟩,
    fun _ _ _ _ => rfl⟩
  · intro hr
    have hso := hret.mp hr
    have h := hok.mp hso
    rw [setup_eq]
    refine ⟨?_, ?_⟩
    · simp [stepsPassed, stepResults, h, setupSteps]
    · simp only [hso, if_true]
      exact ⟨_, rfl, rfl, h.1⟩
  · intro k hk hfail hbefore
    have hp := stepsPassed_eq_first_failure drv k hk hfail hbefore
    rw [setup_eq, hp]
    refine ⟨rfl, ?_⟩
    have hnot : setupOk drv = false := by
      unfold setupOk
      rw [Bool.eq_false_iff]
      intro hall
      rw [List.all_eq_true] at hall
      have hlen : k < (stepResults drv).length := by simpa [stepResults] using hk
      have hmem : (stepResults drv)[k] ∈ stepResults drv := List.getElem_mem hlen
      have := hall _ hmem
      rw [List.getD_eq_getElem _ _ hlen] at hfail
      simp [hfail] at this
    simp [hnot, Run.aborted]

/-- C8 at concrete collaborators: with every call succeeding setup makes all
seven calls and returns; with set-mode failing it stops after the fifth. -/
theorem C8_setup_all_or_abort_witness :
    ((wifiStation.setup (wifiStation.fresh 0 0 0) okDriver wifiStation.zeroConfig none false).calls
        = hostNameCalls (wifiStation.fresh 0 0 0) ++ setupSteps wifiStation.zeroConfig
      ∧ ∃ s, (wifiStation.setup (wifiStation.fresh 0 0 0) okDriver wifiStation.zeroConfig
                none false).value = some s
          ∧ s.getNetIf = okDriver.esp_netif_create_default_wifi_sta
          ∧ s.getNetIf ≠ NULL)
    ∧ ((wifiStation.setup (wifiStation.fresh 0 0 0) setModeFailDriver wifiStation.zeroConfig
          none false).calls
        = hostNameCalls (wifiStation.fresh 0 0 0) ++ (setupSteps wifiStation.zeroConfig).take (4 + 1)
      ∧ (wifiStation.setup (wifiStation.fresh 0 0 0) setModeFailDriver wifiStation.zeroConfig
          none false).aborted = true) :=
  ⟨(C8_setup_all_or_abort (wifiStation.fresh 0 0 0) okDriver wifiStation.zeroConfig
      none false).2.1 (by decide),
   (C8_setup_all_or_abort (wifiStation.fresh 0 0 0) setModeFailDriver wifiStation.zeroConfig
      none false).2.2.1 4 (by decide) (by decide) (by decide)⟩

/-- The whole behaviour of the destructor. -/
theorem destroy_eq (self : wifiStation) (drv : Driver) :
    wifiStation.destroy self drv
      = ⟨Call.esp_event_handler_instance_unregister EventBase.WIFI_EVENT ESP_EVENT_ANY_ID
            self.wlEventHandlerInstance ::
          (if drv.esp_event_handler_instance_unregister EventBase.WIFI_EVENT = ESP_OK then
            Call.esp_event_handler_instance_unregister EventBase.IP_EVENT ESP_EVENT_ANY_ID
              self.ipEventHandlerInstance ::
            (if drv.esp_event_handler_instance_unregister EventBase.IP_EVENT = ESP_OK then
              [Call.free self.hostName] else [])
           else []),
         if drv.esp_event_handler_instance_unregister EventBase.WIFI_EVENT = ESP_OK
            ∧ drv.esp_event_handler_instance_unregister EventBase.IP_EVENT = ESP_OK then
           some { self with wlEventHandlerInstance := NULL, ipEventHandlerInstance := NULL,
                            hostName := none }
         else none⟩ := by
  unfold wifiStation.destroy
  by_cases h1 : drv.esp_event_handler_instance_unregister EventBase.WIFI_EVENT = ESP_OK <;>
    by_cases h2 : drv.esp_event_handler_instance_unregister EventBase.IP_EVENT = ESP_OK <;>
    simp [h1, h2]

/-- C9 (amended): destroying a constructed controller first unsubscribes the
radio class, with the any-ID wildcard and the handle captured for it during
setup; if that fails the process aborts and nothing else is called; otherwise
it unsubscribes the IP class likewise, and aborts if that fails; if both
succeed the hostname is released, and both subscription handles and the
hostname then hold the null sentinel.  No unsubscribe is issued twice. -/
theorem C9_destroy_unsubscribes (g0 g1 g2 : Ptr) (drv : Driver) (cfg : WifiConfig)
    (hostname : Option String) (verbose : Bool) (s : wifiStation) (drv' : Driver)
    (hs : (wifiStation.setup (wifiStation.fresh g0 g1 g2) drv cfg hostname verbose).value
      = some s) :
    (wifiStation.destroy s drv').calls
      = Call.esp_event_handler_instance_unregister EventBase.WIFI_EVENT ESP_EVENT_ANY_ID
            (drv.esp_event_handler_instance_register EventBase.WIFI_EVENT).2 ::
          (if drv'.esp_event_handler_instance_unregister EventBase.WIFI_EVENT = ESP_OK then
            Call.esp_event_handler_instance_unregister EventBase.IP_EVENT ESP_EVENT_ANY_ID
              (drv.esp_event_handler_instance_register EventBase.IP_EVENT).2 ::
            (if drv'.esp_event_handler_instance_unregister EventBase.IP_EVENT = ESP_OK then
              [Call.free s.hostName] else [])
           else [])
    ∧ (wifiStation.destroy s drv').value
      = (if drv'.esp_event_handler_instance_unregister EventBase.WIFI_EVENT = ESP_OK
            ∧ drv'.esp_event_handler_instance_unregister EventBase.IP_EVENT = ESP_OK then
          some { wifiSta := s.wifiSta, hostName := none, verboseLoggin := s.verboseLoggin,
                 wlEventHandlerInstance := NULL, ipEventHandlerInstance := NULL }
         else none)
    ∧ s.hostName ≠ none := by
  rw [setup_eq] at hs
  cases hso : setupOk drv with
  | false => simp [hso] at hs
  | true =>
    simp only [hso, if_true, Option.some.injEq] at hs
    subst hs
    rw [destroy_eq]
    exact ⟨rfl, rfl, by simp [wifiStation.fresh]⟩

/-- C9 at a concrete controller: built and destroyed with every call succeeding. -/
theorem C9_destroy_unsubscribes_witness :
    (wifiStation.destroy sampleStation okDriver).calls
      = [Call.esp_event_handler_instance_unregister EventBase.WIFI_EVENT ESP_EVENT_ANY_ID 8192,
         Call.esp_event_handler_instance_unregister EventBase.IP_EVENT ESP_EVENT_ANY_ID 8200,
         Call.free (some "esp32-0102.0304.0506")]
    ∧ (wifiStation.destroy sampleStation okDriver).value
      = some { wifiSta := 4096, hostName := none, verboseLoggin := true,
               wlEventHandlerInstance := NULL, ipEventHandlerInstance := NULL } := by
  have h := C9_destroy_unsubscribes 0 0 0 okDriver wifiStation.zeroConfig none true
    sampleStation okDriver (by rw [setup_eq]; decide)
  exact ⟨h.1, h.2.1⟩

/-- C9 (as stated) fails: when the radio-class unsubscribe fails the process
aborts at once, and the IP-class unsubscribe is never issued. -/
theorem C9_counterexample :
    (wifiStation.destroy sampleStation unregisterFailDriver).calls
      = [Call.esp_event_handler_instance_unregister EventBase.WIFI_EVENT ESP_EVENT_ANY_ID 8192]
    ∧ (wifiStation.destroy sampleStation unregisterFailDriver).calls.count
        (Call.esp_event_handler_instance_unregister EventBase.IP_EVENT ESP_EVENT_ANY_ID 8200) = 0
    ∧ (wifiStation.destroy sampleStation unregisterFailDriver).aborted = true := by
  rw [destroy_eq]
  decide

set_option maxRecDepth 100000 in
/-- On a byte, the conversion `%02x` gives the two digits of the specification. -/
theorem fmt02x_eq_specHex2 : ∀ b : Fin 256, fmt02x b.val = specHex2 b := by
  decide

/-- The digits of the specification are lowercase hexadecimal digits. -/
theorem isLowerHex_specHexDigit (d : Nat) (h : d < 16) : isLowerHex (specHexDigit d) = true := by
  have all16 : ∀ k : Fin 16, isLowerHex (specHexDigit k.val) = true := by decide
  exact all16 ⟨d, h⟩

/-- The string `asprintf` builds is the hostname of the specification. -/
theorem asprintfHostName_eq_spec (mac : Mac) : asprintfHostName mac = specHostName mac := by
  unfold asprintfHostName specHostName
  simp only [fmt02x_eq_specHex2]
  rfl

/-- Whatever hostname a constructor is given, the object it builds owns the
hostname synthesized from the hardware address: on entry to `setup` the data
member `hostName` is still null. -/
theorem constructed_hostName (g0 g1 g2 : Ptr) (drv : Driver) (cfg : WifiConfig)
    (hostname : Option String) (verbose : Bool) (s : wifiStation)
    (hs : (wifiStation.setup (wifiStation.fresh g0 g1 g2) drv cfg hostname verbose).value
      = some s) :
    s.hostName = some (asprintfHostName drv.esp_read_mac) := by
  rw [setup_eq] at hs
  cases hso : setupOk drv with
  | false => simp [hso] at hs
  | true =>
    simp only [hso, if_true, Option.some.injEq] at hs
    subst hs
    simp [wifiStation.fresh]

/-- The hostname of the specification has twenty characters. -/
theorem specHostName_length (mac : Mac) : (specHostName mac).length = 20 := by
  simp [specHostName, specHex2, String.length]

/-- The hostname of the specification matches `esp32-HHHH.HHHH.HHHH`. -/
theorem specHostName_matches (mac : Mac) : matchesHostPattern (specHostName mac) = true := by
  have h6 : "esp32-".toList = ['e', 's', 'p', '3', '2', '-'] := rfl
  have h1 : ".".toList = ['.'] := rfl
  have hd : ∀ b : Fin 256, b.val / 16 < 16 := fun b => by omega
  have hm : ∀ b : Fin 256, b.val % 16 < 16 := fun b => by omega
  simp [matchesHostPattern, specHostName, specHex2, h6, h1, isLowerHex_specHexDigit, hd, hm]

/-- C1 (the code at the failing input): both constructors, given the hostname
`my-device`, build an object whose hostname is the one synthesized from the
hardware address `01:02:03:04:05:06`, not the caller's. -/
theorem C1_supplied_hostname_ignored :
    (wifiStation.wifiStation 0 0 0 okDriver longSsid shortPassword (some callerHostName)
        false).bind (fun r => r.value.bind (fun s => s.hostName)) = some "esp32-0102.0304.0506"
    ∧ (wifiStation.wifiStationFromStaConfig 0 0 0 okDriver wifiStation.zeroConfig.sta
        (some callerHostName) false).value.bind (fun s => s.hostName)
          = some "esp32-0102.0304.0506"
    ∧ (wifiStation.wifiStation 0 0 0 okDriver longSsid shortPassword (some callerHostName)
        false).bind (fun r => r.value.bind (fun s => s.hostName)) ≠ some callerHostName := by
  unfold wifiStation.wifiStationFromStaConfig
  simp only [wifiStation_eq_setup, setup_eq]
  decide

/-- C2 (amended): when construction is given no hostname, the stored hostname
is exactly the 20-character string
`"esp32-" ++ hex2(m0) ++ hex2(m1) ++ "." ++ hex2(m2) ++ hex2(m3) ++ "." ++ hex2(m4) ++ hex2(m5)`
for the hardware address `m0..m5` read from the device; it is non-null and
matches `esp32-HHHH.HHHH.HHHH`. -/
theorem C2_synthesized_hostname (g0 g1 g2 : Ptr) (drv : Driver) (cfg : WifiConfig)
    (verbose : Bool) (s : wifiStation)
    (hs : (wifiStation.setup (wifiStation.fresh g0 g1 g2) drv cfg none verbose).value = some s) :
    s.hostName = some (specHostName drv.esp_read_mac)
    ∧ s.hostName ≠ none
    ∧ (specHostName drv.esp_read_mac).length = 20
    ∧ matchesHostPattern (specHostName drv.esp_read_mac) = true := by
  have h := constructed_hostName g0 g1 g2 drv cfg none verbose s hs
  rw [asprintfHostName_eq_spec] at h
  exact ⟨h, by simp [h], specHostName_length _, specHostName_matches _⟩

/-- C2 at a concrete device: the address `de:ad:be:ef:00:7f`. -/
theorem C2_synthesized_hostname_witness :
    (some "esp32-dead.beef.007f" : Option String) = some (specHostName sampleMac)
    ∧ (some "esp32-dead.beef.007f" : Option String) ≠ none
    ∧ (specHostName sampleMac).length = 20
    ∧ matchesHostPattern (specHostName sampleMac) = true :=
  C2_synthesized_hostname 0 0 0 sampleMacDriver wifiStation.zeroConfig false
    { wifiSta := 4096, hostName := some "esp32-dead.beef.007f", verboseLoggin := false,
      wlEventHandlerInstance := 8192, ipEventHandlerInstance := 8200 }
    (by rw [setup_eq]; decide)

/-- C2 (as stated) fails: the synthesized hostname has twenty characters, not
nineteen. -/
theorem C2_counterexample :
    (wifiStation.wifiStation 0 0 0 sampleMacDriver longSsid shortPassword none
        false).bind (fun r => r.value.bind (fun s => s.hostName)) = some "esp32-dead.beef.007f"
    ∧ ((wifiStation.wifiStation 0 0 0 sampleMacDriver longSsid shortPassword none
        false).bind (fun r => r.value.bind (fun s => s.hostName))).map String.length
          ≠ some 19 := by
  simp only [wifiStation_eq_setup, setup_eq]
  decide

/-- C3: for every SSID `ssid` and passphrase `password` the credentials
constructor builds its configuration without an invalid memory access: both
`memcpy` calls, which fail on any index outside the field or the input, succeed.
The SSID field has 32 bytes, the first `min (strlen ssid) 32` of them the
leading bytes of `ssid` and the rest zero, and likewise the passphrase field
with 64; an input longer than the bound is stored as exactly its first 32 (64)
bytes; every index copied is below the bound; and the constructor goes on to
setup with that configuration, which returns whenever every setup step
succeeds. -/
theorem C3_credentials_truncated (ssid password : List Nat) :
    SSID_SIZE = 32 ∧ PASSWORD_SIZE = 64
    ∧ ∃ wifiConfig : WifiConfig,
        wifiStation.credentialsConfig ssid password = some wifiConfig
        ∧ wifiConfig.sta.ssid.length = SSID_SIZE
        ∧ wifiConfig.sta.ssid
            = ssid.take (min (strlen ssid) SSID_SIZE)
              ++ List.replicate (SSID_SIZE - min (strlen ssid) SSID_SIZE) 0
        ∧ wifiConfig.sta.password.length = PASSWORD_SIZE
        ∧ wifiConfig.sta.password
            = password.take (min (strlen password) PASSWORD_SIZE)
              ++ List.replicate (PASSWORD_SIZE - min (strlen password) PASSWORD_SIZE) 0
        ∧ (SSID_SIZE < strlen ssid → wifiConfig.sta.ssid = ssid.take SSID_SIZE)
        ∧ (PASSWORD_SIZE < strlen password →
            wifiConfig.sta.password = password.take PASSWORD_SIZE)
        ∧ memcpy wifiStation.zeroConfig.sta.ssid ssid (copyLen ssid SSID_SIZE)
            = some wifiConfig.sta.ssid
        ∧ memcpy wifiStation.zeroConfig.sta.password password (copyLen password PASSWORD_SIZE)
            = some wifiConfig.sta.password
        ∧ (∀ (dst src : List Nat) (n : Nat),
            dst.length < n ∨ src.length < n → memcpy dst src n = none)
        ∧ (∀ i ∈ memcpyIndices (copyLen ssid SSID_SIZE), i < SSID_SIZE ∧ i < strlen ssid)
        ∧ (∀ i ∈ memcpyIndices (copyLen password PASSWORD_SIZE),
            i < PASSWORD_SIZE ∧ i < strlen password)
        ∧ ((∀ b ∈ ssid, b ≠ 0) → strlen ssid = ssid.length)
        ∧ ((∀ b ∈ password, b ≠ 0) → strlen password = password.length)
        ∧ (∀ (g0 g1 g2 : Ptr) (drv : Driver) (hostName : Option String) (verbose : Bool),
            wifiStation.wifiStation g0 g1 g2 drv ssid password hostName verbose
              = some (wifiStation.setup (wifiStation.fresh g0 g1 g2) drv
                  wifiConfig hostName verbose))
        ∧ (∀ (g0 g1 g2 : Ptr) (drv : Driver) (hostName : Option String) (verbose : Bool),
            setupOk drv = true →
              (wifiStation.setup (wifiStation.fresh g0 g1 g2) drv
                  wifiConfig hostName verbose).returned = true
              ∧ Call.esp_wifi_set_config WIFI_IF_STA wifiConfig
                  ∈ (wifiStation.setup (wifiStation.fresh g0 g1 g2) drv
                      wifiConfig hostName verbose).calls) := by
  have hidx : ∀ (s : List Nat) (size : Nat), ∀ i ∈ memcpyIndices (copyLen s size),
      i < size ∧ i < strlen s := by
    intro s size i hi
    rw [copyLen_eq_min] at hi
    have := List.mem_range.mp hi
    omega
  have hls := strlen_le_length ssid
  have hlp := strlen_le_length password
  refine ⟨rfl, rfl, specCredentialsConfig ssid password, credentialsConfig_eq_spec ssid password,
    ?_, rfl, ?_, rfl, ?_, ?_, truncating_copy ssid SSID_SIZE,
    truncating_copy password PASSWORD_SIZE, memcpy_out_of_bounds, hidx _ _, hidx _ _,
    strlen_eq_length _, strlen_eq_length _, ?_, ?_⟩
  · simp only [specCredentialsConfig, List.length_append, List.length_take,
      List.length_replicate]
    omega
  · simp only [specCredentialsConfig, List.length_append, List.length_take,
      List.length_replicate]
    omega
  · intro h
    have hmin : min (strlen ssid) SSID_SIZE = SSID_SIZE := by omega
    simp [specCredentialsConfig, hmin]
  · intro h
    have hmin : min (strlen password) PASSWORD_SIZE = PASSWORD_SIZE := by omega
    simp [specCredentialsConfig, hmin]
  · intro g0 g1 g2 drv hostName verbose
    exact wifiStation_eq_setup g0 g1 g2 drv ssid password hostName verbose
  · intro g0 g1 g2 drv hostName verbose hok
    rw [setup_eq]
    have hall : stepsPassed drv = 7 := by
      have hr : ∀ b ∈ stepResults drv, b = true := by
        simpa [setupOk, List.all_eq_true] using hok
      unfold stepsPassed
      rw [List.takeWhile_eq_self_iff.mpr (by simpa using hr)]
      rfl
    simp [hok, hall, Run.returned, setupSteps]

/-- C3 at a concrete input: a 40-byte SSID is copied without an invalid access
and stored as its first 32 bytes, construction with it returns, and a copy of
all 40 bytes into the 32-byte field would be an invalid access. -/
theorem C3_credentials_truncated_witness :
    ∃ wifiConfig : WifiConfig,
      wifiStation.credentialsConfig longSsid shortPassword = some wifiConfig
      ∧ wifiConfig.sta.ssid = longSsid.take SSID_SIZE
      ∧ memcpy (List.replicate SSID_SIZE 0) longSsid 40 = none
      ∧ (wifiStation.setup (wifiStation.fresh 0 0 0) okDriver wifiConfig none false).returned
          = true := by
  obtain ⟨-, -, wifiConfig, h1, -, -, -, -, h6, -, -, -, h11, -, -, -, -, -, h17⟩ :=
    C3_credentials_truncated longSsid shortPassword
  exact ⟨wifiConfig, h1, h6 (by decide), h11 _ _ 40 (Or.inl (by decide)),
    (h17 0 0 0 okDriver none false (by decide)).1⟩

end WifiStation
